import Mathlib

/-!
Shallow embedding of the chat page of klaviyo-nexus
(src/frontend/app/chat/page.tsx): the message data model, the
handleSend / handleExecute request handlers, the Approve / Deny
click closures of the approval card, and the rendering conditions
of the approval card, its buttons and the input controls.

JavaScript Date.now() readings are passed in explicitly as natural
numbers, one argument per reading, in the order the source performs
them; the new Date() timestamp readings are identified with the
adjacent Date.now() reading, since no claim observes timestamp
values.  The outcome of a fetch is a sum: a network error (the
promise rejected) or a response carrying an ok flag, a status code
and the decoded JSON body.
-/

inductive Role
  | user
  | assistant
  deriving DecidableEq

/-- One entry of the history array sent to the backend: a message
projected to its role and content fields. -/
structure HistEntry where
  role : Role
  content : String
  deriving DecidableEq

/-- The params object attached to an action: the list_name field the
execute path reads (absent, or a string, the empty string being falsy
in JavaScript), plus all remaining key/value fields. -/
structure Params where
  list_name : Option String
  others : List (String × String)
  deriving DecidableEq

/-- The wire-level action_required object of a chat response:
label, approval_id and params. -/
structure ActionData where
  label : String
  approval_id : String
  params : Option Params
  deriving DecidableEq

/-- The client-side Message.actionRequired value.  The source stores the
type tag, the label, the params and two closures onApprove / onDeny; the
closures are embedded by the data they capture: the msgId recorded into
resolvedActions on either click, and the approval_id forwarded to
handleExecute on approve. -/
structure ActionRequired where
  label : String
  params : Option Params
  capturedMsgId : String
  capturedApprovalId : String
  deriving DecidableEq

/-- The Message type of the chat page. -/
structure Message where
  id : String
  role : Role
  content : String
  trace : Option (List String)
  actionRequired : Option ActionRequired
  timestamp : Nat
  deriving DecidableEq

/-- The component state touched by the handlers: the input box, the
isThinking flag, the resolvedActions set (as a list of ids) and the
message list. -/
structure ChatState where
  input : String
  isThinking : Bool
  resolvedActions : List String
  messages : List Message
  deriving DecidableEq

/-- A fetch request issued by the page: url plus the JSON body fields
message and history. -/
structure Request where
  url : String
  message : String
  history : List HistEntry
  deriving DecidableEq

/-- The decoded JSON body of a chat response. -/
structure ResponseData where
  content : String
  trace : Option (List String)
  action_required : Option ActionData
  deriving DecidableEq

/-- Outcome of one fetch: network failure, or a response with its ok
flag, status and body. -/
inductive FetchOutcome
  | networkError
  | response (ok : Bool) (status : Nat) (data : ResponseData)
  deriving DecidableEq

/-- Failure of a fetch: the promise rejected, or the response was
non-2xx (res.ok false), which the handlers turn into a thrown error. -/
def FetchOutcome.failed : FetchOutcome → Prop
  | FetchOutcome.networkError => True
  | FetchOutcome.response ok _ _ => ok = false

/-- JavaScript String.prototype.trim: remove leading and trailing
whitespace.  Written structurally over the character list so that it
evaluates by kernel reduction. -/
def jsTrim (s : String) : String :=
  String.mk (((s.data.dropWhile Char.isWhitespace).reverse.dropWhile
    Char.isWhitespace).reverse)

/-- The single backend endpoint both handlers post to. -/
def chatUrl : String := "http://localhost:8000/api/chat"

/-- The history array of every request body: the projection of the
message list to role and content only. -/
def historyOf (msgs : List Message) : List HistEntry :=
  msgs.map (fun m => { role := m.role, content := m.content })

/-- The userMsg literal of handleSend: id and timestamp from Date.now(),
content from the input box. -/
def userMsgOf (st : ChatState) (t0 : Nat) : Message :=
  { id := toString t0, role := Role.user, content := st.input,
    trace := none, actionRequired := none, timestamp := t0 }

/-- Building Message.actionRequired from a wire action_required object:
the closures capture msgId and data.action_required.approval_id. -/
def mkActionRequired (msgId : String) (a : ActionData) : ActionRequired :=
  { label := a.label, params := a.params,
    capturedMsgId := msgId, capturedApprovalId := a.approval_id }

/-- The aiMsg literal of the success path of handleSend.  msgId is
computed from one Date.now() reading (t1) and the id field from a
second, later reading (t2); the source evaluates (Date.now() + 1)
twice rather than reusing msgId. -/
def aiMsgOf (data : ResponseData) (t1 t2 : Nat) : Message :=
  { id := toString (t2 + 1), role := Role.assistant, content := data.content,
    trace := some (data.trace.getD []),
    actionRequired := data.action_required.map (mkActionRequired (toString (t1 + 1))),
    timestamp := t2 }

def connectionErrorContent : String :=
  "⚠️ Connection Error: I couldn\x27t reach the Nexus Brain. Is Docker running?"

/-- The errorMsg literal of the catch branch of handleSend. -/
def connectionErrorMsg (t : Nat) : Message :=
  { id := toString t, role := Role.assistant, content := connectionErrorContent,
    trace := none, actionRequired := none, timestamp := t }

/-- handleSend.  t0 is the Date.now() reading at userMsg creation, t1
the first reading after the fetch settles (used for msgId on success
and for the error message id on failure), t2 the reading at the aiMsg
id field.  Returns the final component state and the list of requests
issued. -/
def handleSend (st : ChatState) (t0 t1 t2 : Nat) (outcome : FetchOutcome) :
    ChatState × List Request :=
  if jsTrim st.input = "" then (st, [])
  else
    let userMsg := userMsgOf st t0
    let stAfterUser : ChatState :=
      { st with messages := st.messages ++ [userMsg], input := "", isThinking := true }
    let req : Request :=
      { url := chatUrl, message := userMsg.content, history := historyOf st.messages }
    match outcome with
    | FetchOutcome.networkError =>
        ({ stAfterUser with
            messages := stAfterUser.messages ++ [connectionErrorMsg t1],
            isThinking := false }, [req])
    | FetchOutcome.response ok _ data =>
        if ok then
          ({ stAfterUser with
              messages := stAfterUser.messages ++ [aiMsgOf data t1 t2],
              isThinking := false }, [req])
        else
          ({ stAfterUser with
              messages := stAfterUser.messages ++ [connectionErrorMsg t1],
              isThinking := false }, [req])

def executeMsgBase (approvalId : String) : String :=
  "User approved action " ++ approvalId ++ ". Please call execute_action now."

/-- The message string built by handleExecute: the base sentence, plus
the fallback-params suffix exactly when params is present and its
list_name field is truthy (a non-empty string). -/
def executeMessage (approvalId : String) (params : Option Params) : String :=
  match params with
  | none => executeMsgBase approvalId
  | some p =>
    match p.list_name with
    | none => executeMsgBase approvalId
    | some s =>
      if s = "" then executeMsgBase approvalId
      else executeMsgBase approvalId ++ " Fallback Params: list_name=\"" ++ s ++ "\""

def executionFailedContent : String :=
  "⚠️ Execution Failed: The server encountered an error while processing the approval."

/-- The errorMsg literal of the catch branch of handleExecute. -/
def executionFailedMsg (t : Nat) : Message :=
  { id := toString t, role := Role.assistant, content := executionFailedContent,
    trace := none, actionRequired := none, timestamp := t }

/-- The aiMsg literal of the success path of handleExecute: content and
trace from the response, and no actionRequired field. -/
def executeReplyMsg (data : ResponseData) (t : Nat) : Message :=
  { id := toString t, role := Role.assistant, content := data.content,
    trace := data.trace, actionRequired := none, timestamp := t }

/-- handleExecute.  t is the Date.now() reading after the fetch
settles (message id on either path).  The isThinking flag is set at
entry and cleared in the finally block, so the returned state carries
the cleared flag. -/
def handleExecute (st : ChatState) (approvalId : String) (params : Option Params)
    (t : Nat) (outcome : FetchOutcome) : ChatState × List Request :=
  let req : Request :=
    { url := chatUrl, message := executeMessage approvalId params,
      history := historyOf st.messages }
  match outcome with
  | FetchOutcome.networkError =>
      ({ st with
          messages := st.messages ++ [executionFailedMsg t],
          isThinking := false }, [req])
  | FetchOutcome.response ok _ data =>
      if ok then
        ({ st with
            messages := st.messages ++ [executeReplyMsg data t],
            isThinking := false }, [req])
      else
        ({ st with
            messages := st.messages ++ [executionFailedMsg t],
            isThinking := false }, [req])

/-- The message literal of the onDeny closure. -/
def cancelMsg (t : Nat) : Message :=
  { id := toString t, role := Role.assistant, content := "Action cancelled.",
    trace := none, actionRequired := none, timestamp := t }

/-- The onDeny closure: add the captured msgId to resolvedActions and
append the cancellation message; no fetch is performed. -/
def clickDeny (st : ChatState) (a : ActionRequired) (t : Nat) :
    ChatState × List Request :=
  ({ st with
      resolvedActions := a.capturedMsgId :: st.resolvedActions,
      messages := st.messages ++ [cancelMsg t] }, [])

/-- The onApprove closure: add the captured msgId to resolvedActions and
call handleExecute with the captured approval_id and params. -/
def clickApprove (st : ChatState) (a : ActionRequired) (t : Nat)
    (outcome : FetchOutcome) : ChatState × List Request :=
  handleExecute
    { st with resolvedActions := a.capturedMsgId :: st.resolvedActions }
    a.capturedApprovalId a.params t outcome

/-- The approval card of a message is rendered iff msg.actionRequired
is set. -/
def rendersCard (m : Message) : Bool := m.actionRequired.isSome

/-- The Approve / Deny buttons are rendered iff the card is rendered
and resolvedActions does not contain msg.id. -/
def rendersButtons (st : ChatState) (m : Message) : Bool :=
  m.actionRequired.isSome && !(st.resolvedActions.contains m.id)

/-- The Completed badge replaces the buttons once resolvedActions
contains msg.id. -/
def rendersCompleted (st : ChatState) (m : Message) : Bool :=
  m.actionRequired.isSome && st.resolvedActions.contains m.id

/-- disabled := !input.trim() || isThinking on the send button. -/
def sendButtonDisabled (st : ChatState) : Bool :=
  (jsTrim st.input == "") || st.isThinking

/-- onKeyDown: e.key === Enter && !isThinking && handleSend() — the
Enter key triggers a send only while not thinking. -/
def enterTriggersSend (key : String) (st : ChatState) : Bool :=
  (key == "Enter") && !st.isThinking

/-- A chat response whose body carries an action_required object, used
to evaluate the approval-card lifecycle on concrete inputs. -/
def bugData : ResponseData :=
  { content := "ok", trace := none,
    action_required := some
      { label := "Create List", approval_id := "ap1", params := none } }

/-- The state after a send of "hi" from the initial state during which
the millisecond clock ticks between the msgId line and the aiMsg id
line: Date.now() reads 3 at the msgId line and 4 at the id field. -/
def bugState : ChatState :=
  (handleSend
    { input := "hi", isThinking := false, resolvedActions := [], messages := [] }
    3 3 4 (FetchOutcome.response true 200 bugData)).1

/-- The assistant message appended by that send. -/
def bugCard : Message := aiMsgOf bugData 3 4

/-- The actionRequired value stored on that message: its closures
captured msgId = "4" while the message id is "5". -/
def bugAct : ActionRequired :=
  mkActionRequired (toString 4)
    { label := "Create List", approval_id := "ap1", params := none }

/-- A message already on screen, used as concrete prior history. -/
def wMsg : Message :=
  { id := "1", role := Role.assistant, content := "hello", trace := some ["a"],
    actionRequired := none, timestamp := 0 }

/-- A concrete idle state with one prior message and input "hi". -/
def wSt : ChatState :=
  { input := "hi", isThinking := false, resolvedActions := [], messages := [wMsg] }

/-- A concrete successful response carrying an action_required object. -/
def wData : ResponseData :=
  { content := "done", trace := some ["step"],
    action_required := some
      { label := "Create List", approval_id := "apv",
        params := some { list_name := some ("VIP"), others := [("size", "3")] } } }

/-- A concrete params object with a truthy list_name and one other
field. -/
def wP : Params := { list_name := some ("VIP"), others := [("size", "3")] }

/-- A concrete params object without list_name. -/
def wQ : Params := { list_name := none, others := [("size", "3")] }

/-- A concrete params object with a different truthy list_name. -/
def wR : Params := { list_name := some ("X"), others := [("a", "b")] }

/-- A concrete state whose input is whitespace only. -/
def blankSt : ChatState :=
  { input := "  ", isThinking := false, resolvedActions := [], messages := [] }

/-- A concrete state with a request in flight. -/
def busySt : ChatState :=
  { input := "x", isThinking := true, resolvedActions := [], messages := [] }

/-- Claim C1: when the user approves a pending action, the client
triggers execution by posting to the same chat endpoint a synthetic
free-text user message that begins with
"User approved action [approvalId]. Please call execute_action now.",
so every execution request is a plain chat message containing the
approval identifier, not a request to a dedicated execution
endpoint. -/
theorem approve_sends_chat_message (st : ChatState) (a : ActionRequired)
    (t : Nat) (outcome : FetchOutcome) :
    (clickApprove st a t outcome).2 =
      [{ url := chatUrl,
         message := executeMessage a.capturedApprovalId a.params,
         history := historyOf st.messages }]
    ∧ ∃ rest, executeMessage a.capturedApprovalId a.params =
        "User approved action " ++ a.capturedApprovalId ++
          ". Please call execute_action now." ++ rest := by
  constructor
  · cases outcome with
    | networkError => rfl
    | response ok status data => cases ok <;> rfl
  · cases hp : a.params with
    | none =>
        exact ⟨"", by simp [executeMessage, executeMsgBase]⟩
    | some p =>
        cases hl : p.list_name with
        | none =>
            exact ⟨"", by simp [executeMessage, executeMsgBase, hl]⟩
        | some s =>
            by_cases hs : s = ""
            · exact ⟨"", by simp [executeMessage, executeMsgBase, hl, hs]⟩
            · refine ⟨" Fallback Params: list_name=\"" ++ s ++ "\"", ?_⟩
              simp only [executeMessage, executeMsgBase, hl, if_neg hs,
                String.append_assoc]

/-- Claim C2: clicking Deny appends exactly one assistant message whose
content is "Action cancelled.", issues no network request, and leaves
all earlier messages unchanged. -/
theorem deny_appends_cancellation (st : ChatState) (a : ActionRequired)
    (t : Nat) :
    (clickDeny st a t).2 = []
    ∧ (clickDeny st a t).1.messages = st.messages ++ [cancelMsg t]
    ∧ (cancelMsg t).role = Role.assistant
    ∧ (cancelMsg t).content = "Action cancelled."
    ∧ (cancelMsg t).actionRequired = none := by
  exact ⟨rfl, rfl, rfl, rfl, rfl⟩

/-- Claim C3: the claim requires the id recorded in resolvedActions on a
click to equal the id of the rendered message, and the code violates
it.  handleSend evaluates (Date.now() + 1) twice — once for the msgId
the closures capture and once for the message id — so when the clock
ticks between the two lines the recorded id is "4" but the message id
is "5", and after Deny the card still renders the Approve/Deny buttons
instead of the Completed badge. -/
theorem approval_buttons_survive_decision :
    bugState.messages.getLast? = some bugCard
    ∧ bugCard.actionRequired = some bugAct
    ∧ bugAct.capturedMsgId = "4"
    ∧ bugCard.id = "5"
    ∧ rendersButtons (clickDeny bugState bugAct 9).1 bugCard = true
    ∧ rendersCompleted (clickDeny bugState bugAct 9).1 bugCard = false := by
  decide

/-- Claim C4: every chat request carries body fields message and
history, and the client reads the response as content, trace and an
optional action_required supplying label, approval_id and params for
the approval card. -/
theorem chat_request_response_shape (st : ChatState) (t0 t1 t2 status : Nat)
    (data : ResponseData) (apid : String) (params : Option Params)
    (h : jsTrim st.input ≠ "") :
    (handleSend st t0 t1 t2 (FetchOutcome.response true status data)).2 =
      [{ url := chatUrl, message := st.input, history := historyOf st.messages }]
    ∧ (handleSend st t0 t1 t2 (FetchOutcome.response true status data)).1.messages =
        st.messages ++ [userMsgOf st t0, aiMsgOf data t1 t2]
    ∧ (aiMsgOf data t1 t2).content = data.content
    ∧ (aiMsgOf data t1 t2).trace = some (data.trace.getD [])
    ∧ (aiMsgOf data t1 t2).actionRequired.map
        (fun r => (r.label, r.capturedApprovalId, r.params)) =
      data.action_required.map (fun a => (a.label, a.approval_id, a.params))
    ∧ (handleExecute st apid params t0 (FetchOutcome.response true status data)).2 =
        [{ url := chatUrl, message := executeMessage apid params,
           history := historyOf st.messages }]
    ∧ (executeReplyMsg data t0).content = data.content
    ∧ (executeReplyMsg data t0).trace = data.trace := by
  refine ⟨?_, ?_, rfl, rfl, ?_, rfl, rfl, rfl⟩
  · simp [handleSend, userMsgOf, h]
  · simp [handleSend, h]
  · obtain ⟨c, tr, ar⟩ := data
    cases ar <;> rfl

theorem chat_request_response_shape_witness :
    jsTrim wSt.input ≠ ""
    ∧ ((handleSend wSt 3 4 5 (FetchOutcome.response true 200 wData)).2 =
        [{ url := chatUrl, message := wSt.input, history := historyOf wSt.messages }]
      ∧ (handleSend wSt 3 4 5 (FetchOutcome.response true 200 wData)).1.messages =
          wSt.messages ++ [userMsgOf wSt 3, aiMsgOf wData 4 5]
      ∧ (aiMsgOf wData 4 5).content = wData.content
      ∧ (aiMsgOf wData 4 5).trace = some (wData.trace.getD [])
      ∧ (aiMsgOf wData 4 5).actionRequired.map
          (fun r => (r.label, r.capturedApprovalId, r.params)) =
        wData.action_required.map (fun a => (a.label, a.approval_id, a.params))
      ∧ (handleExecute wSt ("apv") none 3 (FetchOutcome.response true 200 wData)).2 =
          [{ url := chatUrl, message := executeMessage ("apv") none,
             history := historyOf wSt.messages }]
      ∧ (executeReplyMsg wData 3).content = wData.content
      ∧ (executeReplyMsg wData 3).trace = wData.trace) :=
  ⟨by decide,
    chat_request_response_shape wSt 3 4 5 200 wData ("apv") none (by decide)⟩

/-- Claim C5: every failure of a chat or execute request — a network
error or a non-2xx status — appends an explicit, labeled assistant
error message and resets the thinking state; neither handler leaves an
empty or missing reply. -/
theorem failed_requests_yield_labeled_reply (st : ChatState)
    (t0 t1 t2 t : Nat) (apid : String) (params : Option Params)
    (outcome : FetchOutcome) (hs : jsTrim st.input ≠ "")
    (hf : outcome.failed) :
    (handleSend st t0 t1 t2 outcome).1.messages =
        st.messages ++ [userMsgOf st t0, connectionErrorMsg t1]
    ∧ (handleSend st t0 t1 t2 outcome).1.isThinking = false
    ∧ (connectionErrorMsg t1).content = connectionErrorContent
    ∧ connectionErrorContent ≠ ""
    ∧ (handleExecute st apid params t outcome).1.messages =
        st.messages ++ [executionFailedMsg t]
    ∧ (handleExecute st apid params t outcome).1.isThinking = false
    ∧ (executionFailedMsg t).content = executionFailedContent
    ∧ executionFailedContent ≠ "" := by
  have hcc : connectionErrorContent ≠ "" := by decide
  have hec : executionFailedContent ≠ "" := by decide
  cases outcome with
  | networkError =>
      exact ⟨by simp [handleSend, hs], by simp [handleSend, hs], rfl, hcc,
        rfl, rfl, rfl, hec⟩
  | response ok status data =>
      have hok : ok = false := hf
      subst hok
      exact ⟨by simp [handleSend, hs], by simp [handleSend, hs], rfl, hcc,
        rfl, rfl, rfl, hec⟩

theorem failed_requests_yield_labeled_reply_witness :
    jsTrim wSt.input ≠ ""
    ∧ FetchOutcome.failed FetchOutcome.networkError
    ∧ ((handleSend wSt 3 4 5 FetchOutcome.networkError).1.messages =
        wSt.messages ++ [userMsgOf wSt 3, connectionErrorMsg 4]
      ∧ (handleSend wSt 3 4 5 FetchOutcome.networkError).1.isThinking = false
      ∧ (connectionErrorMsg 4).content = connectionErrorContent
      ∧ connectionErrorContent ≠ ""
      ∧ (handleExecute wSt ("apv") none 6 FetchOutcome.networkError).1.messages =
          wSt.messages ++ [executionFailedMsg 6]
      ∧ (handleExecute wSt ("apv") none 6 FetchOutcome.networkError).1.isThinking
          = false
      ∧ (executionFailedMsg 6).content = executionFailedContent
      ∧ executionFailedContent ≠ "") :=
  ⟨by decide, trivial,
    failed_requests_yield_labeled_reply wSt 3 4 5 6 ("apv") none
      FetchOutcome.networkError (by decide) trivial⟩

/-- Claim C6: the history field of every request either handler issues
is the message list projected to exactly the role and content fields,
in message order, with id, trace, actionRequired and timestamp
stripped; handleSend issues no request at all only when the trimmed
input is empty. -/
theorem request_history_role_content_only (st : ChatState)
    (t0 t1 t2 t : Nat) (apid : String) (params : Option Params)
    (outcome : FetchOutcome) :
    ((handleSend st t0 t1 t2 outcome).2 = [] ∨
      (handleSend st t0 t1 t2 outcome).2 =
        [{ url := chatUrl, message := st.input,
           history :=
             st.messages.map (fun m => { role := m.role, content := m.content }) }])
    ∧ (handleExecute st apid params t outcome).2 =
        [{ url := chatUrl, message := executeMessage apid params,
           history :=
             st.messages.map (fun m => { role := m.role, content := m.content }) }] := by
  constructor
  · by_cases hb : jsTrim st.input = ""
    · exact Or.inl (by simp [handleSend, hb])
    · refine Or.inr ?_
      cases outcome with
      | networkError => simp [handleSend, userMsgOf, historyOf, hb]
      | response ok status data =>
          cases ok <;> simp [handleSend, userMsgOf, historyOf, hb]
  · cases outcome with
    | networkError => rfl
    | response ok status data => cases ok <;> rfl

/-- Claim C7: the message appended for a successful chat response
renders an approval card, carrying the label of the descriptor, iff
the response body has a non-null action_required field, and its
Approve/Deny buttons show while its id is unresolved; a response
without action_required yields a message with no pending action. -/
theorem approval_card_iff_action_field (st : ChatState)
    (t0 t1 t2 status : Nat) (data : ResponseData)
    (h : jsTrim st.input ≠ "") :
    (handleSend st t0 t1 t2 (FetchOutcome.response true status data)).1.messages =
        st.messages ++ [userMsgOf st t0, aiMsgOf data t1 t2]
    ∧ rendersCard (aiMsgOf data t1 t2) = data.action_required.isSome
    ∧ (aiMsgOf data t1 t2).actionRequired.isSome = data.action_required.isSome
    ∧ (aiMsgOf data t1 t2).actionRequired.map ActionRequired.label =
        data.action_required.map ActionData.label
    ∧ rendersButtons
        (handleSend st t0 t1 t2 (FetchOutcome.response true status data)).1
        (aiMsgOf data t1 t2) =
      (data.action_required.isSome &&
        !(st.resolvedActions.contains (toString (t2 + 1)))) := by
  have hres :
      (handleSend st t0 t1 t2
        (FetchOutcome.response true status data)).1.resolvedActions =
      st.resolvedActions := by
    simp [handleSend, h]
  obtain ⟨c, tr, ar⟩ := data
  refine ⟨by simp [handleSend, h], ?_, ?_, ?_, ?_⟩
  · cases ar <;> rfl
  · cases ar <;> rfl
  · cases ar <;> rfl
  · simp only [rendersButtons, hres]
    cases ar <;> rfl

theorem approval_card_iff_action_field_witness :
    jsTrim wSt.input ≠ ""
    ∧ ((handleSend wSt 3 4 5 (FetchOutcome.response true 200 wData)).1.messages =
        wSt.messages ++ [userMsgOf wSt 3, aiMsgOf wData 4 5]
      ∧ rendersCard (aiMsgOf wData 4 5) = wData.action_required.isSome
      ∧ (aiMsgOf wData 4 5).actionRequired.isSome = wData.action_required.isSome
      ∧ (aiMsgOf wData 4 5).actionRequired.map ActionRequired.label =
          wData.action_required.map ActionData.label
      ∧ rendersButtons
          (handleSend wSt 3 4 5 (FetchOutcome.response true 200 wData)).1
          (aiMsgOf wData 4 5) =
        (wData.action_required.isSome &&
          !(wSt.resolvedActions.contains (toString (5 + 1))))) :=
  ⟨by decide, approval_card_iff_action_field wSt 3 4 5 200 wData (by decide)⟩

/-- Claim C8: the synthetic execution message forwards at most the
list_name parameter: the fallback suffix appears exactly when the
params object has a truthy (non-empty) list_name, and the remaining
parameters never influence the message. -/
theorem execute_message_forwards_only_list_name (approvalId s : String)
    (p q r : Params) (hs : p.list_name = some s) (hne : s ≠ "")
    (hq : q.list_name = none) :
    executeMessage approvalId (some p) =
      executeMsgBase approvalId ++ " Fallback Params: list_name=\"" ++ s ++ "\""
    ∧ executeMessage approvalId (some q) = executeMsgBase approvalId
    ∧ executeMessage approvalId (some { p with list_name := some "" }) =
        executeMsgBase approvalId
    ∧ executeMessage approvalId none = executeMsgBase approvalId
    ∧ executeMessage approvalId (some r) =
        executeMessage approvalId (some { r with others := [] }) := by
  refine ⟨?_, ?_, ?_, rfl, ?_⟩
  · simp only [executeMessage, hs, if_neg hne]
  · simp only [executeMessage, hq]
  · simp [executeMessage]
  · obtain ⟨ln, os⟩ := r
    cases ln with
    | none => rfl
    | some s2 => by_cases h2 : s2 = "" <;> simp [executeMessage, h2]

theorem execute_message_forwards_only_list_name_witness :
    wP.list_name = some ("VIP")
    ∧ ("VIP" : String) ≠ ""
    ∧ wQ.list_name = none
    ∧ (executeMessage ("apv") (some wP) =
        executeMsgBase ("apv") ++ " Fallback Params: list_name=\"" ++ "VIP" ++ "\""
      ∧ executeMessage ("apv") (some wQ) = executeMsgBase ("apv")
      ∧ executeMessage ("apv") (some { wP with list_name := some "" }) =
          executeMsgBase ("apv")
      ∧ executeMessage ("apv") none = executeMsgBase ("apv")
      ∧ executeMessage ("apv") (some wR) =
          executeMessage ("apv") (some { wR with others := [] })) :=
  ⟨rfl, by decide, rfl,
    execute_message_forwards_only_list_name ("apv") ("VIP") wP wQ wR
      rfl (by decide) rfl⟩

/-- Claim C9: a whitespace-only (or empty) input makes handleSend
return with the state unchanged and no request issued; while a request
is in flight (isThinking) the send button is disabled and the Enter
key does not trigger a send. -/
theorem blank_input_and_inflight_guard (st st2 : ChatState)
    (t0 t1 t2 : Nat) (outcome : FetchOutcome) (key : String)
    (hb : jsTrim st.input = "") (ht : st2.isThinking = true) :
    handleSend st t0 t1 t2 outcome = (st, [])
    ∧ sendButtonDisabled st2 = true
    ∧ enterTriggersSend key st2 = false := by
  refine ⟨?_, ?_, ?_⟩
  · simp [handleSend, hb]
  · simp [sendButtonDisabled, ht]
  · simp [enterTriggersSend, ht]

theorem blank_input_and_inflight_guard_witness :
    jsTrim blankSt.input = ""
    ∧ busySt.isThinking = true
    ∧ (handleSend blankSt 3 4 5 FetchOutcome.networkError = (blankSt, [])
      ∧ sendButtonDisabled busySt = true
      ∧ enterTriggersSend ("Enter") busySt = false) :=
  ⟨by decide, rfl,
    blank_input_and_inflight_guard blankSt busySt 3 4 5
      FetchOutcome.networkError ("Enter") (by decide) rfl⟩

/-- Claim C10: assistant messages appended by the execute path carry no
actionRequired field, so a reply to an execution request never renders
a new approval card. -/
theorem execute_reply_never_requires_action (st : ChatState) (apid : String)
    (params : Option Params) (t : Nat) (outcome : FetchOutcome) :
    ∃ m, (handleExecute st apid params t outcome).1.messages = st.messages ++ [m]
      ∧ m.actionRequired = none ∧ rendersCard m = false := by
  cases outcome with
  | networkError => exact ⟨executionFailedMsg t, rfl, rfl, rfl⟩
  | response ok status data =>
      cases ok with
      | false => exact ⟨executionFailedMsg t, rfl, rfl, rfl⟩
      | true => exact ⟨executeReplyMsg data t, rfl, rfl, rfl⟩
